import Mathlib

/-!
# Verification of `supabase/functions/ingest_events/index.ts`

A shallow embedding of the Supabase edge function that ingests daily
fixtures from API-Football and reconciles them into the `ligas`, `times`
and `jogos` tables via upserts keyed on the provider external id
(`id_api`).

Modelling conventions:
* The HTTP upstream is an oracle `ApiParams → HttpResult`; the database
  is a `Store` of the external-id key sets of the three tables together
  with a `DbOracle` that injects persistence errors per operation.
* JavaScript exceptions (`throw` / the handler's `try/catch`) are
  modelled with `Except PipeError`.
* A JSON value that may be `null` is an `Option`; the JavaScript
  coercion `String(x)` of such a value is `jsString` (`null` prints as
  `"null"`).
* External library calls that no claim inspects (luxon timestamp
  printing) are modelled as injective encodings of their arguments.
-/

namespace Ingest

/-! ## Canonical status vocabulary and `mapStatus` -/

inductive MatchStatus where
  | scheduled
  | in_progress
  | finished
  | canceled
  | postponed
deriving DecidableEq, Repr

/-- `mapStatus` from the source: a `switch` on the provider short code with
fall-through groups and a `default: return "scheduled"`. -/
def mapStatus (apiShort : String) : MatchStatus :=
  if apiShort = "NS" then .scheduled
  else if apiShort = "1H" ∨ apiShort = "2H" ∨ apiShort = "HT" ∨
          apiShort = "ET" ∨ apiShort = "BT" ∨ apiShort = "P" then .in_progress
  else if apiShort = "FT" ∨ apiShort = "AET" ∨ apiShort = "PEN" then .finished
  else if apiShort = "CANC" ∨ apiShort = "ABD" then .canceled
  else if apiShort = "PST" then .postponed
  else .scheduled

/-- The provider codes given explicit cases in the `switch`. -/
def knownCodes : List String :=
  ["NS", "1H", "2H", "HT", "ET", "BT", "P", "FT", "AET", "PEN", "CANC", "ABD", "PST"]

/-! ## `slugify` -/

/-- A combining diacritical mark, the range `[̀-ͯ]` stripped by
`slugify` after NFD normalization. -/
def combining (c : Char) : Bool :=
  0x300 ≤ c.toNat && c.toNat ≤ 0x36F

/-- Modelled: the JavaScript built-in `String.prototype.normalize("NFD")`,
restricted to the Latin-1 precomposed letters that occur in this domain
(league/team names); every other character decomposes to itself. The
source calls the platform's Unicode normalizer; only this Latin range is
exercised by the claims. -/
def nfdChar (c : Char) : List Char :=
  if c = 'à' then ['a', '̀'] else
  if c = 'á' then ['a', '́'] else
  if c = 'â' then ['a', '̂'] else
  if c = 'ã' then ['a', '̃'] else
  if c = 'ä' then ['a', '̈'] else
  if c = 'ç' then ['c', '̧'] else
  if c = 'è' then ['e', '̀'] else
  if c = 'é' then ['e', '́'] else
  if c = 'ê' then ['e', '̂'] else
  if c = 'í' then ['i', '́'] else
  if c = 'ó' then ['o', '́'] else
  if c = 'ô' then ['o', '̂'] else
  if c = 'õ' then ['o', '̃'] else
  if c = 'ö' then ['o', '̈'] else
  if c = 'ú' then ['u', '́'] else
  if c = 'ü' then ['u', '̈'] else
  if c = 'À' then ['A', '̀'] else
  if c = 'Á' then ['A', '́'] else
  if c = 'Â' then ['A', '̂'] else
  if c = 'Ã' then ['A', '̃'] else
  if c = 'Ä' then ['A', '̈'] else
  if c = 'Ç' then ['C', '̧'] else
  if c = 'É' then ['E', '́'] else
  if c = 'Ê' then ['E', '̂'] else
  if c = 'Í' then ['I', '́'] else
  if c = 'Ó' then ['O', '́'] else
  if c = 'Ô' then ['O', '̂'] else
  if c = 'Õ' then ['O', '̃'] else
  if c = 'Ú' then ['U', '́'] else
  if c = 'Ü' then ['U', '̈'] else
  [c]

/-- A character kept verbatim by `replace(/[^a-z0-9]+/g, "-")`. -/
def isSlugChar (c : Char) : Bool :=
  ('a' ≤ c && c ≤ 'z') || ('0' ≤ c && c ≤ '9')

/-- Helper for `collapseRuns`: `inRun` records whether the previous
character already belonged to a run of non-slug characters (whose single
replacement hyphen has been emitted). -/
def collapseRunsAux (inRun : Bool) : List Char → List Char
  | [] => []
  | c :: cs =>
    if isSlugChar c then c :: collapseRunsAux false cs
    else if inRun then collapseRunsAux true cs
    else '-' :: collapseRunsAux true cs

/-- `replace(/[^a-z0-9]+/g, "-")`: each maximal run of characters outside
`[a-z0-9]` becomes a single hyphen. -/
def collapseRuns (l : List Char) : List Char :=
  collapseRunsAux false l

/-- `replace(/(^-|-$)+/g, "")`: drop hyphen runs at both ends. -/
def trimHyphens (l : List Char) : List Char :=
  ((l.dropWhile (· == '-')).reverse.dropWhile (· == '-')).reverse

/-- `slugify` from the source:
`(s ?? "").normalize("NFD").replace(/[̀-ͯ]/g, "")` then
`.toLowerCase().replace(/[^a-z0-9]+/g, "-").replace(/(^-|-$)+/g, "")`. -/
def slugify (s : Option String) : String :=
  let base := ((s.getD "").data.flatMap nfdChar).filter fun c => !combining c
  String.mk (trimHyphens (collapseRuns (base.map Char.toLower)))

/-! ## Upstream API model -/

/-- The query parameters of one request against the fixtures endpoint.
The handler builds the base URL with `league`, `season`, `date` and
`timezone` and no `page` parameter; `fetchFixturesSmart` sets `page` on
copies of that URL for pages 2 and beyond. -/
structure ApiParams where
  league : Nat
  season : Nat
  date : String
  timezone : String
  page : Option Nat
deriving DecidableEq, Repr

/-- `u.searchParams.set("page", String(page))` on a copy of the base URL. -/
def setPage (ps : ApiParams) (p : Nat) : ApiParams :=
  { ps with page := some p }

/-- One fixture object of the upstream response array, restricted to the
fields the function reads. JSON values that can be `null` (or absent) are
`Option`; note the team and fixture ids are `Option Int` even though the
TypeScript annotation says `number` — the annotation is not checked at
runtime and the claims quantify over absent ids. -/
structure Fixture where
  fixtureId : Option Int
  timestamp : Int
  venueName : Option String
  statusShort : Option String
  leagueIdApi : Int
  leagueName : Option String
  leagueCountry : Option String
  leagueSeason : Int
  leagueRound : Option String
  homeId : Option Int
  homeName : Option String
  homeLogo : Option String
  awayId : Option Int
  awayName : Option String
  awayLogo : Option String
deriving DecidableEq, Repr

/-- The decoded response envelope (`ApiFootballResponse`), restricted to
the fields the function reads. `errorKeys` stands for
`Object.keys(j.errors)`. -/
structure Envelope where
  errorKeys : List String
  results : Nat
  pagingCurrent : Nat
  pagingTotal : Nat
  response : List Fixture
deriving DecidableEq, Repr

/-- Outcome of one `fetch`: either a decoded envelope (`r.ok` true) or a
transport failure with HTTP status and body text. -/
inductive HttpResult where
  | ok (env : Envelope)
  | fail (status : Nat) (body : String)
deriving DecidableEq, Repr

def HttpResult.isOk : HttpResult → Bool
  | .ok _ => true
  | .fail _ _ => false

def HttpResult.env : HttpResult → Envelope
  | .ok e => e
  | .fail _ _ => ⟨[], 0, 0, 0, []⟩

/-- A JavaScript exception thrown inside the handler's `try` block:
either the `API-Football error <status>: <body>` transport error thrown
by `fetchFixturesSmart`, or a Supabase persistence error re-thrown by an
upsert helper. -/
inductive PipeError where
  | transport (status : Nat) (body : String)
  | db (msg : String)
deriving DecidableEq, Repr

/-- `String(e?.message ?? e)` in the handler's `catch`. -/
def PipeError.message : PipeError → String
  | .transport s b => "API-Football error " ++ toString s ++ ": " ++ b
  | .db m => m

/-- What `fetchFixturesSmart` returns when it does not throw. -/
structure FetchOk where
  fixtures : List Fixture
  firstJson : Envelope
  hasErrors : Bool
deriving DecidableEq, Repr

/-- The page-2-and-beyond loop of `fetchFixturesSmart`: fetch each page
in order, throwing on the first transport failure, appending each page's
`response` array. Also returns the trace of requests issued. -/
def fetchPages (oracle : ApiParams → HttpResult) (base : ApiParams) :
    List Nat → List ApiParams × Except PipeError (List Fixture)
  | [] => ([], .ok [])
  | p :: ps =>
    let req := setPage base p
    match oracle req with
    | .fail s b => ([req], .error (.transport s b))
    | .ok env =>
      let rest := fetchPages oracle base ps
      (req :: rest.1, rest.2.map fun fs => env.response ++ fs)

/-- `fetchFixturesSmart` from the source: fetch the base URL, throw on a
non-ok transport status, decode, record whether the envelope's error map
is non-empty, then fetch pages `2..paging.total` when `total > 1`,
concatenating every page's `response`. Returns the trace of requests
issued alongside the result. -/
def fetchFixturesSmart (oracle : ApiParams → HttpResult) (base : ApiParams) :
    List ApiParams × Except PipeError FetchOk :=
  match oracle base with
  | .fail s b => ([base], .error (.transport s b))
  | .ok j0 =>
    let hasErrors := !j0.errorKeys.isEmpty
    let total := j0.pagingTotal
    if total > 1 then
      let rest := fetchPages oracle base (List.range' 2 (total - 1))
      (base :: rest.1, rest.2.map fun fs => ⟨j0.response ++ fs, j0, hasErrors⟩)
    else
      ([base], .ok ⟨j0.response, j0, hasErrors⟩)

/-! ## Store model

The claims inspect which rows exist keyed by external id, so the store
is the `id_api` key set of each table, kept as a duplicate-free list in
insertion order. An upsert on conflict `id_api` adds the key when absent
and otherwise leaves the key set unchanged (it overwrites the row's
mutable fields, which no claim observes across runs). -/

structure Store where
  ligas : List String
  times : List String
  jogos : List String
deriving DecidableEq, Repr

/-- Effect of one upsert-by-`id_api` on a table's key set. -/
def upsertKey (k : String) (l : List String) : List String :=
  if k ∈ l then l else l ++ [k]

/-- Effect of a multi-row upsert on a table's key set. -/
def foldUpsert (ks : List String) (l : List String) : List String :=
  ks.foldl (fun acc k => upsertKey k acc) l

/-- Error injection for the persistence layer: each operation the
function performs can be made to fail with a Supabase error message
(`none` = the operation succeeds). -/
structure DbOracle where
  ligaErr : String → Option String
  timeErr : String → Option String
  selectErr : Option String
  bulkErr : Option String
  insertErr : Option String
  updateErr : String → Option String

/-- The happy-path persistence layer: every operation succeeds. -/
def noDbErr : DbOracle :=
  ⟨fun _ => none, fun _ => none, none, none, none, fun _ => none⟩

/-- `String(x)` applied to a JSON value that may be `null`:
JavaScript coerces `null` to the string `"null"`. -/
def jsString : Option Int → String
  | none => "null"
  | some n => toString n

/-- The internal id (`id` column) of the `ligas` row keyed `id_api`: the
store assigns one durable id per external id; an injective encoding. -/
def ligaUuid (id_api : String) : String := "liga:" ++ id_api

/-- The internal id of the `times` row keyed `id_api`. -/
def timeUuid (id_api : String) : String := "time:" ++ id_api

/-- `ensureLeagueId` from the source: upsert the league row on conflict
`id_api` and return the row's internal id; a persistence error is
thrown. -/
def ensureLeagueId (db : DbOracle) (st : Store) (fx : Fixture) :
    Except PipeError (Store × String) :=
  let id_api := toString fx.leagueIdApi
  match db.ligaErr id_api with
  | some e => .error (.db e)
  | none => .ok ({ st with ligas := upsertKey id_api st.ligas }, ligaUuid id_api)

/-- `ensureTeamId` from the source: upsert the team row on conflict
`id_api` (with `id_api = String(t.id)`) and return the row's internal
id; a persistence error is thrown. -/
def ensureTeamId (db : DbOracle) (st : Store) (teamId : Option Int) :
    Except PipeError (Store × String) :=
  let id_api := jsString teamId
  match db.timeErr id_api with
  | some e => .error (.db e)
  | none => .ok ({ st with times := upsertKey id_api st.times }, timeUuid id_api)

/-- A candidate `jogos` row (`JogosInsert`), restricted to the fields the
claims observe. -/
structure JogosInsert where
  id_api : String
  liga_id : Option String
  time_casa_id : Option String
  time_fora_id : Option String
  estadio : Option String
  kickoff_utc : String
  status : MatchStatus
  round : Option String
  season : String
  updated_at : String
deriving DecidableEq, Repr

/-- Modelled: luxon `DateTime.fromSeconds(tsSec).setZone(tz).toISO(...)`.
An injective encoding of the instant and zone; no claim inspects the ISO
text itself. -/
def toISOWithZoneFromUnix (tsSec : Int) (tz : String) : String :=
  "unix:" ++ toString tsSec ++ "@" ++ tz

/-- The `{created, updated}` record returned by `upsertJogos`. -/
structure Summary where
  created : Nat
  updated : Nat
deriving DecidableEq, Repr

/-- One database operation attempted by `upsertJogos`, traced so that
the fallback path's behaviour on individual rows is observable. -/
inductive DbOp where
  | select
  | bulk
  | insertBatch
  | updateRow (id_api : String)
deriving DecidableEq, Repr

/-- The per-row `update ... .eq("id_api", r.id_api)` loop of the
fallback branch: throws on the first failing row, leaving the remaining
rows unattempted. Updates never change the key set. -/
def runUpdates (db : DbOracle) : List JogosInsert → List DbOp × Except PipeError Unit
  | [] => ([], .ok ())
  | r :: rs =>
    match db.updateErr r.id_api with
    | some e => ([.updateRow r.id_api], .error (.db e))
    | none =>
      let rest := runUpdates db rs
      (.updateRow r.id_api :: rest.1, rest.2)

/-- `upsertJogos` from the source: select the already-existing
`id_api`s, partition the batch into `toInsert`/`toUpdate`, attempt one
bulk upsert on conflict `id_api`, and if that fails fall back to a single
batch insert of `toInsert` followed by one `update` per row of
`toUpdate`; any fallback error is thrown. Returns the resulting store,
the trace of operations attempted, and the summary
`{created: toInsert.length, updated: toUpdate.length}`. -/
def upsertJogos (db : DbOracle) (st : Store) (rows : List JogosInsert) :
    Store × List DbOp × Except PipeError Summary :=
  if rows.isEmpty then (st, [], .ok ⟨0, 0⟩)
  else
    match db.selectErr with
    | some e => (st, [.select], .error (.db e))
    | none =>
      let toInsert := rows.filter fun r => r.id_api ∉ st.jogos
      let toUpdate := rows.filter fun r => r.id_api ∈ st.jogos
      match db.bulkErr with
      | none =>
        ({ st with jogos := foldUpsert (rows.map (·.id_api)) st.jogos },
         [.select, .bulk], .ok ⟨toInsert.length, toUpdate.length⟩)
      | some _ =>
        if toInsert.isEmpty then
          let upd := runUpdates db toUpdate
          (st, [.select, .bulk] ++ upd.1,
           upd.2.map fun _ => ⟨toInsert.length, toUpdate.length⟩)
        else
          match db.insertErr with
          | some e => (st, [.select, .bulk, .insertBatch], .error (.db e))
          | none =>
            let st1 := { st with jogos := foldUpsert (toInsert.map (·.id_api)) st.jogos }
            let upd := runUpdates db toUpdate
            (st1, [.select, .bulk, .insertBatch] ++ upd.1,
             upd.2.map fun _ => ⟨toInsert.length, toUpdate.length⟩)

/-! ## Handler -/

/-- The parameters of one invocation after the handler's query-string
resolution (lines 222-244 of the source), together with the ambient API
key and the clock reading used for `updated_at`. -/
structure HandlerInput where
  apiKey : String
  league : Nat
  season : Nat
  date : String
  tz : String
  now : String
deriving DecidableEq, Repr

/-- The base `apiUrl` the handler builds: league, season, date and
timezone, with no `page` parameter. -/
def baseParams (i : HandlerInput) : ApiParams :=
  ⟨i.league, i.season, i.date, i.tz, none⟩

/-- The `JogosInsert` row pushed for one fixture, given the resolved
internal ids: `id_api = String(fx.fixture.id)`, venue name, canonical
kickoff, mapped status (`fx.fixture.status.short ?? ""`), round, season
string, `updated_at = now`. -/
def buildRow (tz now : String) (ligaId homeId awayId : Option String)
    (fx : Fixture) : JogosInsert :=
  { id_api := jsString fx.fixtureId
    liga_id := ligaId
    time_casa_id := homeId
    time_fora_id := awayId
    estadio := fx.venueName
    kickoff_utc := toISOWithZoneFromUnix fx.timestamp tz
    status := mapStatus (fx.statusShort.getD "")
    round := fx.leagueRound
    season := toString fx.leagueSeason
    updated_at := now }

/-- The row-building loop of the handler: for each fixture, in order,
resolve the league, the home team and the away team (each an upsert that
can throw) and push the candidate row. Returns the store as mutated so
far even when a resolution throws (already-committed upserts persist). -/
def processFixtures (db : DbOracle) (tz now : String) :
    Store → List Fixture → Store × Except PipeError (List JogosInsert)
  | st, [] => (st, .ok [])
  | st, fx :: rest =>
    match ensureLeagueId db st fx with
    | .error e => (st, .error e)
    | .ok (st1, ligaId) =>
      match ensureTeamId db st1 fx.homeId with
      | .error e => (st1, .error e)
      | .ok (st2, homeId) =>
        match ensureTeamId db st2 fx.awayId with
        | .error e => (st2, .error e)
        | .ok (st3, awayId) =>
          let row := buildRow tz now (some ligaId) (some homeId) (some awayId) fx
          let rest' := processFixtures db tz now st3 rest
          (rest'.1, rest'.2.map fun rows => row :: rows)

/-- The JSON body of the handler's `Response`, by branch. -/
inductive RespBody where
  | missingKey
  | upstreamError (apiErrors : List String) (lastUrl : ApiParams)
  | success (created : Nat) (updated : Nat)
  | caught (msg : String)
deriving DecidableEq, Repr

/-- The `ok` field serialized in each response body. -/
def RespBody.okField : RespBody → Bool
  | .success _ _ => true
  | _ => false

/-- The top-level keys of the success body, as serialized by
`JSON.stringify({ ok: true, ...summary, debug: {...} })` where `summary`
is `upsertJogos`'s `{created, updated}` record. -/
def successBodyKeys : List String :=
  ["ok", "created", "updated", "debug"]

/-- The `Deno.serve` handler from the source: reject a missing API key
with 500; fetch all pages (a thrown transport error is caught as 500);
on a non-empty first-page error map answer 502 `upstream_error` without
touching the store; otherwise resolve identities and build rows fixture
by fixture, upsert the batch, and answer 200 with the summary; any
thrown persistence error is caught as 500, with the store keeping the
upserts committed before the throw. -/
def handler (http : ApiParams → HttpResult) (db : DbOracle)
    (i : HandlerInput) (st : Store) : Store × Nat × RespBody :=
  if i.apiKey = "" then (st, 500, .missingKey)
  else
    let base := baseParams i
    match (fetchFixturesSmart http base).2 with
    | .error e => (st, 500, .caught e.message)
    | .ok fr =>
      if fr.hasErrors then
        (st, 502, .upstreamError fr.firstJson.errorKeys base)
      else
        match processFixtures db i.tz i.now st fr.fixtures with
        | (st', .error e) => (st', 500, .caught e.message)
        | (st', .ok rows) =>
          match upsertJogos db st' rows with
          | (st'', _, .error e) => (st'', 500, .caught e.message)
          | (st'', _, .ok s) => (st'', 200, .success s.created s.updated)

/-! ## Slug-keyed entrypoint: league configuration and window clamping

The repository's second, near-duplicate entrypoint (the one keyed by a
configured slug-to-config table with season bounds) is not under `src/`;
the definitions of this section model it from the spec. -/

/-- Lexicographic order on character lists, the order JavaScript's `<`
gives ISO `yyyy-mm-dd` date strings (which coincides with chronological
order). -/
def charListLt : List Char → List Char → Bool
  | [], [] => false
  | [], _ :: _ => true
  | _ :: _, [] => false
  | a :: as, b :: bs =>
    if a < b then true else if b < a then false else charListLt as bs

/-- `a < b` on ISO date strings. -/
def isoLt (a b : String) : Bool :=
  charListLt a.data b.data

/-- Modelled from the spec: the league configuration looked up by slug in
the alternate entrypoint — upstream provider id, default season, and
optional season start/end bounds (ISO dates). This table is not under
`src/`. -/
structure LeagueConfig where
  providerId : Nat
  defaultSeason : Nat
  seasonStart : Option String
  seasonEnd : Option String
deriving DecidableEq, Repr

/-- Modelled from the spec: "clamps the requested date window to the
configured season bounds when present" — the effective window start is
the later of the requested start and `season_start` (when configured). -/
def clampStart (cfg : LeagueConfig) (requested : String) : String :=
  match cfg.seasonStart with
  | none => requested
  | some s => if isoLt requested s then s else requested

/-- Modelled from the spec: the effective window end is the earlier of
the requested end and `season_end` (when configured). -/
def clampEnd (cfg : LeagueConfig) (requested : String) : String :=
  match cfg.seasonEnd with
  | none => requested
  | some e => if isoLt e requested then e else requested

/-- Modelled from the spec: the effective fetch window of the alternate
entrypoint after clamping both bounds. -/
def effectiveWindow (cfg : LeagueConfig) (reqFrom reqTo : String) : String × String :=
  (clampStart cfg reqFrom, clampEnd cfg reqTo)

/-! ## Derived forms of the happy-path run -/

/-- The row the loop builds for one fixture when no upsert fails: league
and team internal ids all resolve (the source never leaves them null). -/
def rowOf (tz now : String) (fx : Fixture) : JogosInsert :=
  buildRow tz now (some (ligaUuid (toString fx.leagueIdApi)))
    (some (timeUuid (jsString fx.homeId))) (some (timeUuid (jsString fx.awayId))) fx

/-- The store after the row-building loop's league/team upserts, when no
upsert fails: mirrors `processFixtures` on the happy path. -/
def storeAfterResolve : Store → List Fixture → Store
  | st, [] => st
  | st, fx :: rest =>
    storeAfterResolve
      { st with
          ligas := upsertKey (toString fx.leagueIdApi) st.ligas
          times := upsertKey (jsString fx.awayId) (upsertKey (jsString fx.homeId) st.times) }
      rest

/-- The fixtures one invocation fetches (empty when the fetch throws). -/
def fetchedFixtures (http : ApiParams → HttpResult) (i : HandlerInput) : List Fixture :=
  match (fetchFixturesSmart http (baseParams i)).2 with
  | .ok fr => fr.fixtures
  | .error _ => []

/-- The batch of candidate rows one invocation builds on the happy path. -/
def builtRows (http : ApiParams → HttpResult) (i : HandlerInput) : List JogosInsert :=
  (fetchedFixtures http i).map (rowOf i.tz i.now)

/-! ## Concrete instances for witnesses and counterexamples -/

def emptyStore : Store := ⟨[], [], []⟩

/-- A well-formed fixture (external id 999, status FT, teams 10/20). -/
def fxA : Fixture :=
  ⟨some 999, 1746900000, some "Arena", some "FT", 71, some "Serie A", some "Brazil",
   2025, some "Round 1", some 10, some "Team A", none, some 20, some "Team B", none⟩

/-- A fixture whose external id is null. -/
def fxNoId : Fixture :=
  ⟨none, 1746900000, none, some "NS", 71, some "Serie A", some "Brazil",
   2025, none, some 10, some "Team A", none, some 20, some "Team B", none⟩

/-- A fixture whose home and away team ids are null. -/
def fxNoTeams : Fixture :=
  ⟨some 998, 1746900000, none, some "NS", 71, some "Serie A", some "Brazil",
   2025, none, none, none, none, none, none, none⟩

def inputA : HandlerInput := ⟨"key", 71, 2025, "2025-05-10", "America/Sao_Paulo", "T1"⟩

/-- Upstream returning one page with one well-formed fixture. -/
def httpOnePage : ApiParams → HttpResult :=
  fun _ => .ok ⟨[], 1, 1, 1, [fxA]⟩

/-- Upstream returning one page holding only the id-less fixture. -/
def httpNoId : ApiParams → HttpResult :=
  fun _ => .ok ⟨[], 1, 1, 1, [fxNoId]⟩

/-- Upstream whose first page reports zero results but `paging.total = 2`,
and whose second page carries a fixture. -/
def httpLatePage : ApiParams → HttpResult :=
  fun ps => if ps.page = some 2 then .ok ⟨[], 1, 2, 2, [fxA]⟩ else .ok ⟨[], 0, 1, 2, []⟩

/-- Upstream returning three pages of one fixture each. -/
def httpThreePages : ApiParams → HttpResult :=
  fun ps =>
    if ps.page = some 2 then .ok ⟨[], 1, 2, 3, [fxNoTeams]⟩
    else if ps.page = some 3 then .ok ⟨[], 1, 3, 3, [fxNoId]⟩
    else .ok ⟨[], 1, 1, 3, [fxA]⟩

/-- Upstream whose envelope decodes but carries a provider error map. -/
def httpUpstreamErr : ApiParams → HttpResult :=
  fun _ => .ok ⟨["token"], 0, 1, 1, []⟩

/-- Upstream that fails at the transport layer. -/
def httpTransportFail : ApiParams → HttpResult :=
  fun _ => .fail 499 "bad key"

/-- Two candidate rows keyed `"a"` and `"b"`. -/
def rowA : JogosInsert :=
  ⟨"a", some "liga:71", none, none, none, "unix:0@tz", .scheduled, none, "2025", "T1"⟩

def rowB : JogosInsert :=
  ⟨"b", some "liga:71", none, none, none, "unix:0@tz", .scheduled, none, "2025", "T1"⟩

/-- A store already holding `jogos` rows `"a"` and `"b"`. -/
def stAB : Store := ⟨[], [], ["a", "b"]⟩

/-- A persistence layer whose bulk `jogos` upsert fails and whose
per-row update of row `"a"` fails, everything else succeeding. -/
def dbBulkRowA : DbOracle :=
  { ligaErr := fun _ => none
    timeErr := fun _ => none
    selectErr := none
    bulkErr := some "bulk upsert failed"
    insertErr := none
    updateErr := fun k => if k = "a" then some "update a failed" else none }

/-- A persistence layer whose league upsert fails. -/
def dbLigaFail : DbOracle :=
  { noDbErr with ligaErr := fun _ => some "liga upsert failed" }

/-- The configured league of the claim's clamping example. -/
def cfgSerieA : LeagueConfig := ⟨71, 2025, some "2025-03-29", some "2025-12-07"⟩

/-- Upstream returning a single page with zero results. -/
def httpEmptyOne : ApiParams → HttpResult :=
  fun _ => .ok ⟨[], 0, 1, 1, []⟩

/-- The store after one happy run of `httpOnePage` over `emptyStore`. -/
def stOne : Store := ⟨["71"], ["10", "20"], ["999"]⟩

/-- A fixture whose home team id alone is null (away id present). -/
def fxHomeNull : Fixture :=
  ⟨some 997, 1746900000, none, some "NS", 71, some "Serie A", some "Brazil",
   2025, none, none, none, none, some 20, some "Team B", none⟩

/-- A fixture whose away team id alone is null (home id present). -/
def fxAwayNull : Fixture :=
  ⟨some 996, 1746900000, none, some "NS", 71, some "Serie A", some "Brazil",
   2025, none, some 10, some "Team A", none, none, none, none⟩

/-! ## Key-set lemmas -/

theorem mem_upsertKey_self (k : String) (l : List String) : k ∈ upsertKey k l := by
  unfold upsertKey
  split
  · assumption
  · exact List.mem_append_right _ (List.mem_singleton.mpr rfl)

theorem mem_upsertKey_of_mem {k : String} {l : List String} (k' : String) (h : k ∈ l) :
    k ∈ upsertKey k' l := by
  unfold upsertKey
  split
  · exact h
  · exact List.mem_append_left _ h

theorem upsertKey_of_mem {k : String} {l : List String} (h : k ∈ l) : upsertKey k l = l := by
  unfold upsertKey
  exact if_pos h

theorem mem_foldUpsert_of_mem {k : String} (ks : List String) {l : List String} (h : k ∈ l) :
    k ∈ foldUpsert ks l := by
  induction ks generalizing l with
  | nil => exact h
  | cons k' ks ih => exact ih (mem_upsertKey_of_mem k' h)

theorem mem_foldUpsert_of_mem_keys {k : String} {ks : List String} (h : k ∈ ks)
    (l : List String) : k ∈ foldUpsert ks l := by
  induction ks generalizing l with
  | nil => cases h
  | cons k' ks ih =>
    rcases List.mem_cons.mp h with h' | h'
    · subst h'
      exact mem_foldUpsert_of_mem ks (mem_upsertKey_self k l)
    · exact ih h' _

theorem foldUpsert_of_subset {ks l : List String} (h : ∀ k ∈ ks, k ∈ l) :
    foldUpsert ks l = l := by
  induction ks with
  | nil => rfl
  | cons k' ks ih =>
    show foldUpsert ks (upsertKey k' l) = l
    rw [upsertKey_of_mem (h k' (List.mem_cons_self _ _))]
    exact ih fun k hk => h k (List.mem_cons_of_mem _ hk)

/-! ## The row-building loop on the happy path -/

theorem noDbErr_liga (k : String) : noDbErr.ligaErr k = none := rfl

theorem noDbErr_time (k : String) : noDbErr.timeErr k = none := rfl

theorem processFixtures_noErr (tz now : String) (st : Store) (fxs : List Fixture) :
    processFixtures noDbErr tz now st fxs =
      (storeAfterResolve st fxs, .ok (fxs.map (rowOf tz now))) := by
  induction fxs generalizing st with
  | nil => rfl
  | cons fx rest ih =>
    simp only [processFixtures, ensureLeagueId, ensureTeamId, noDbErr_liga, noDbErr_time,
      storeAfterResolve, List.map_cons, ih, rowOf, Except.map]

theorem storeAfterResolve_jogos (st : Store) (fxs : List Fixture) :
    (storeAfterResolve st fxs).jogos = st.jogos := by
  induction fxs generalizing st with
  | nil => rfl
  | cons fx rest ih => exact ih _

theorem mem_ligas_storeAfterResolve {k : String} {st : Store} (fxs : List Fixture)
    (h : k ∈ st.ligas) : k ∈ (storeAfterResolve st fxs).ligas := by
  induction fxs generalizing st with
  | nil => exact h
  | cons fx rest ih => exact ih (mem_upsertKey_of_mem _ h)

theorem mem_times_storeAfterResolve {k : String} {st : Store} (fxs : List Fixture)
    (h : k ∈ st.times) : k ∈ (storeAfterResolve st fxs).times := by
  induction fxs generalizing st with
  | nil => exact h
  | cons fx rest ih => exact ih (mem_upsertKey_of_mem _ (mem_upsertKey_of_mem _ h))

theorem ligaKey_mem_storeAfterResolve {fx : Fixture} {fxs : List Fixture} (st : Store)
    (h : fx ∈ fxs) : toString fx.leagueIdApi ∈ (storeAfterResolve st fxs).ligas := by
  induction fxs generalizing st with
  | nil => cases h
  | cons fx' rest ih =>
    rcases List.mem_cons.mp h with h' | h'
    · subst h'
      exact mem_ligas_storeAfterResolve rest (mem_upsertKey_self _ _)
    · exact ih _ h'

theorem homeKey_mem_storeAfterResolve {fx : Fixture} {fxs : List Fixture} (st : Store)
    (h : fx ∈ fxs) : jsString fx.homeId ∈ (storeAfterResolve st fxs).times := by
  induction fxs generalizing st with
  | nil => cases h
  | cons fx' rest ih =>
    rcases List.mem_cons.mp h with h' | h'
    · subst h'
      exact mem_times_storeAfterResolve rest (mem_upsertKey_of_mem _ (mem_upsertKey_self _ _))
    · exact ih _ h'

theorem awayKey_mem_storeAfterResolve {fx : Fixture} {fxs : List Fixture} (st : Store)
    (h : fx ∈ fxs) : jsString fx.awayId ∈ (storeAfterResolve st fxs).times := by
  induction fxs generalizing st with
  | nil => cases h
  | cons fx' rest ih =>
    rcases List.mem_cons.mp h with h' | h'
    · subst h'
      exact mem_times_storeAfterResolve rest (mem_upsertKey_self _ _)
    · exact ih _ h'

theorem storeAfterResolve_id {st : Store} {fxs : List Fixture}
    (hl : ∀ fx ∈ fxs, toString fx.leagueIdApi ∈ st.ligas)
    (hh : ∀ fx ∈ fxs, jsString fx.homeId ∈ st.times)
    (ha : ∀ fx ∈ fxs, jsString fx.awayId ∈ st.times) :
    storeAfterResolve st fxs = st := by
  induction fxs generalizing st with
  | nil => rfl
  | cons fx rest ih =>
    show storeAfterResolve _ rest = st
    rw [upsertKey_of_mem (hl fx (List.mem_cons_self _ _)),
      upsertKey_of_mem (hh fx (List.mem_cons_self _ _)),
      upsertKey_of_mem (ha fx (List.mem_cons_self _ _))]
    exact ih (fun f hf => hl f (List.mem_cons_of_mem _ hf))
      (fun f hf => hh f (List.mem_cons_of_mem _ hf))
      (fun f hf => ha f (List.mem_cons_of_mem _ hf))

/-! ## `upsertJogos` on the happy path -/

theorem upsertJogos_noErr (st : Store) (rows : List JogosInsert) :
    upsertJogos noDbErr st rows =
      ({ st with jogos := foldUpsert (rows.map (·.id_api)) st.jogos },
       if rows.isEmpty then [] else [.select, .bulk],
       .ok ⟨(rows.filter fun r => r.id_api ∉ st.jogos).length,
            (rows.filter fun r => r.id_api ∈ st.jogos).length⟩) := by
  cases rows with
  | nil => rfl
  | cons r rest => rfl

/-! ## Fetcher lemmas -/

theorem fetchPages_all_ok (oracle : ApiParams → HttpResult) (base : ApiParams)
    (pages : List Nat) (h : ∀ p ∈ pages, (oracle (setPage base p)).isOk = true) :
    fetchPages oracle base pages =
      (pages.map (setPage base),
       .ok (pages.flatMap fun p => ((oracle (setPage base p)).env).response)) := by
  induction pages with
  | nil => rfl
  | cons p ps ih =>
    have hp := h p (List.mem_cons_self _ _)
    have ihs := ih (fun q hq => h q (List.mem_cons_of_mem _ hq))
    rcases ho : oracle (setPage base p) with env | ⟨s, b⟩
    · simp only [fetchPages, ho, ihs, List.map_cons, List.flatMap_cons, Except.map,
        HttpResult.env]
    · rw [ho] at hp
      cases hp

theorem fetch_first_fail (oracle : ApiParams → HttpResult) (base : ApiParams)
    {s : Nat} {b : String} (h : oracle base = .fail s b) :
    fetchFixturesSmart oracle base = ([base], .error (.transport s b)) := by
  unfold fetchFixturesSmart
  rw [h]

theorem fetch_all_ok (oracle : ApiParams → HttpResult) (base : ApiParams)
    {env0 : Envelope} (h0 : oracle base = .ok env0)
    (hp : ∀ p, 2 ≤ p → p ≤ env0.pagingTotal → (oracle (setPage base p)).isOk = true) :
    fetchFixturesSmart oracle base =
      (base :: (List.range' 2 (env0.pagingTotal - 1)).map (setPage base),
       .ok ⟨env0.response ++
              (List.range' 2 (env0.pagingTotal - 1)).flatMap
                (fun p => ((oracle (setPage base p)).env).response),
            env0, !env0.errorKeys.isEmpty⟩) := by
  have hpre : ∀ p ∈ List.range' 2 (env0.pagingTotal - 1),
      (oracle (setPage base p)).isOk = true := by
    intro p hmem
    rcases List.mem_range'_1.mp hmem with ⟨h2, hlt⟩
    exact hp p h2 (by omega)
  have hfp := fetchPages_all_ok oracle base _ hpre
  by_cases ht : env0.pagingTotal > 1
  · simp only [fetchFixturesSmart, h0, if_pos ht, hfp, Except.map]
  · have h1 : env0.pagingTotal - 1 = 0 := by omega
    simp only [fetchFixturesSmart, h0, if_neg ht, h1, List.range'_zero, List.map_nil,
      List.flatMap_nil, List.append_nil]

/-! ## Handler branch lemmas -/

theorem handler_upstream_error (http : ApiParams → HttpResult) (db : DbOracle)
    (i : HandlerInput) (st : Store) {env0 : Envelope}
    (hkey : ¬ i.apiKey = "") (h0 : http (baseParams i) = .ok env0)
    (herr : ¬ env0.errorKeys = [])
    (hp : ∀ p, 2 ≤ p → p ≤ env0.pagingTotal → (http (setPage (baseParams i) p)).isOk = true) :
    handler http db i st = (st, 502, .upstreamError env0.errorKeys (baseParams i)) := by
  have hf := fetch_all_ok http (baseParams i) h0 hp
  have he : (!env0.errorKeys.isEmpty) = true := by
    simp [List.isEmpty_iff, herr]
  simp only [handler, if_neg hkey, hf, he, if_true]

theorem handler_transport_error (http : ApiParams → HttpResult) (db : DbOracle)
    (i : HandlerInput) (st : Store) {s : Nat} {b : String}
    (hkey : ¬ i.apiKey = "") (h0 : http (baseParams i) = .fail s b) :
    handler http db i st = (st, 500, .caught ("API-Football error " ++ toString s ++ ": " ++ b)) := by
  have hf := fetch_first_fail http (baseParams i) h0
  simp only [handler, if_neg hkey, hf, PipeError.message]

/-! ## Further helper lemmas -/

theorem upsertJogos_all_existing (st : Store) (rows : List JogosInsert)
    (h : ∀ r ∈ rows, r.id_api ∈ st.jogos) :
    upsertJogos noDbErr st rows =
      (st, if rows.isEmpty then [] else [.select, .bulk], .ok ⟨0, rows.length⟩) := by
  have hsub : ∀ k ∈ rows.map (·.id_api), k ∈ st.jogos := by
    intro k hk
    rcases List.mem_map.mp hk with ⟨r, hr, rfl⟩
    exact h r hr
  have h1 : (rows.filter fun r => r.id_api ∉ st.jogos) = [] := by
    rw [List.filter_eq_nil_iff]
    intro a ha
    simpa using h a ha
  have h2 : (rows.filter fun r => r.id_api ∈ st.jogos) = rows := by
    rw [List.filter_eq_self]
    intro a ha
    simpa using h a ha
  rw [upsertJogos_noErr, foldUpsert_of_subset hsub, h1, h2, List.length_nil]

theorem runUpdates_first_fail (db : DbOracle) (pre : List JogosInsert) (r : JogosInsert)
    (post : List JogosInsert) (m : String)
    (hpre : ∀ p ∈ pre, db.updateErr p.id_api = none)
    (hr : db.updateErr r.id_api = some m) :
    runUpdates db (pre ++ r :: post) =
      (pre.map (fun p => .updateRow p.id_api) ++ [.updateRow r.id_api],
       .error (.db m)) := by
  induction pre with
  | nil => simp [runUpdates, hr]
  | cons p ps ih =>
    have hp := hpre p (List.mem_cons_self _ _)
    simp [runUpdates, hp, ih (fun q hq => hpre q (List.mem_cons_of_mem _ hq))]

theorem mem_collapseRunsAux {c : Char} (l : List Char) (b : Bool)
    (h : c ∈ collapseRunsAux b l) : isSlugChar c = true ∨ c = '-' := by
  induction l generalizing b with
  | nil => cases h
  | cons x xs ih =>
    by_cases hx : isSlugChar x
    · rw [collapseRunsAux, if_pos hx] at h
      rcases List.mem_cons.mp h with h' | h'
      · exact Or.inl (h' ▸ hx)
      · exact ih _ h'
    · rw [collapseRunsAux, if_neg hx] at h
      cases b with
      | true =>
        rw [if_pos rfl] at h
        exact ih _ h
      | false =>
        rw [if_neg (by simp)] at h
        rcases List.mem_cons.mp h with h' | h'
        · exact Or.inr h'
        · exact ih _ h'

theorem mem_trimHyphens {c : Char} {l : List Char} (h : c ∈ trimHyphens l) : c ∈ l := by
  unfold trimHyphens at h
  have h1 := List.mem_reverse.mp h
  have h2 := ((List.dropWhile_sublist _).mem h1 : c ∈ (l.dropWhile (· == '-')).reverse)
  exact (List.dropWhile_sublist _).mem (List.mem_reverse.mp h2)

/-! ## Claim theorems -/

/-- C5: `mapStatus` is total over all strings and never raises: NS maps to
scheduled; 1H, 2H, HT, ET, BT, P to in_progress; FT, AET, PEN to finished;
CANC, ABD to canceled; PST to postponed; and every other string takes the
`default` branch to scheduled. -/
theorem c5_mapStatus_total :
    knownCodes.map mapStatus =
      [.scheduled, .in_progress, .in_progress, .in_progress, .in_progress, .in_progress,
       .in_progress, .finished, .finished, .finished, .canceled, .canceled, .postponed] ∧
    ∀ s : String, s ∉ knownCodes → mapStatus s = .scheduled := by
  refine ⟨by decide, ?_⟩
  intro s hs
  simp only [knownCodes, List.mem_cons, List.not_mem_nil, or_false, not_or] at hs
  obtain ⟨h1, h2, h3, h4, h5, h6, h7, h8, h9, h10, h11, h12, h13⟩ := hs
  simp [mapStatus, h1, h2, h3, h4, h5, h6, h7, h8, h9, h10, h11, h12, h13]

/-- Witness for C5 at the unrecognized code `"WO"`. -/
theorem c5_mapStatus_total_witness : mapStatus "WO" = .scheduled :=
  c5_mapStatus_total.2 "WO" (by decide)

/-- C9: `slugify` is deterministic and diacritic-insensitive:
`slugify("São Paulo FC") = slugify("Sao Paulo FC") = "sao-paulo-fc"`, an
input with no alphanumeric content (and the `null` input) yields the
empty-string fallback, and every character of any output is in
`[a-z0-9]` or a hyphen. -/
theorem c9_slugify_diacritic_insensitive :
    slugify (some "São Paulo FC") = "sao-paulo-fc" ∧
    slugify (some "Sao Paulo FC") = "sao-paulo-fc" ∧
    slugify (some "!? !?") = "" ∧
    slugify none = "" ∧
    ∀ s : String, ∀ c ∈ (slugify (some s)).data, isSlugChar c = true ∨ c = '-' := by
  refine ⟨by decide, by decide, by decide, by decide, ?_⟩
  intro s c hc
  exact mem_collapseRunsAux _ _ (mem_trimHyphens hc)

/-- Witness for C9's character-set clause at a concrete input. -/
theorem c9_slugify_diacritic_insensitive_witness : isSlugChar 's' = true ∨ 's' = '-' :=
  c9_slugify_diacritic_insensitive.2.2.2.2 "São Paulo FC" 's' (by decide)

/-- C8: when the selected league configuration carries a season start
bound, the driver clamps the requested window start: a requested date
lexicographically before `season_start` is replaced by `season_start`.
(The slug-keyed entrypoint holding this logic is modelled from the spec;
it is not under `src/`.) -/
theorem c8_window_clamped (cfg : LeagueConfig) (s reqFrom reqTo : String)
    (hs : cfg.seasonStart = some s) (hlt : isoLt reqFrom s = true) :
    clampStart cfg reqFrom = s ∧ (effectiveWindow cfg reqFrom reqTo).1 = s := by
  simp [effectiveWindow, clampStart, hs, hlt]

/-- Witness for C8 at the claim's own example: `season_start =
2025-03-29`, requested date `2025-01-01`. -/
theorem c8_window_clamped_witness :
    clampStart cfgSerieA "2025-01-01" = "2025-03-29" ∧
    (effectiveWindow cfgSerieA "2025-01-01" "2025-05-10").1 = "2025-03-29" :=
  c8_window_clamped cfgSerieA "2025-03-29" "2025-01-01" "2025-05-10" rfl (by decide)

/-- C2 counterexample: a fixture whose external id is null is not
skipped — the handler still writes a match row for it (keyed by the
JavaScript coercion `"null"`) and counts it as created, and the success
body has no `skipped` field. -/
theorem c2_counterexample_no_skip :
    fxNoId.fixtureId = none ∧
    handler httpNoId noDbErr inputA emptyStore =
      (⟨["71"], ["10", "20"], ["null"]⟩, 200, .success 1 0) ∧
    "skipped" ∉ successBodyKeys := by
  refine ⟨rfl, by decide, by decide⟩

/-- C2 amended: the handler never classifies a fixture as skipped. Every
fetched fixture — including one whose external id is absent — produces a
candidate row (with `id_api` the JavaScript string of the missing id,
`"null"`) that is upserted into `jogos`; there is no skipped counter, and
the success body's keys are exactly `ok`, `created`, `updated`, `debug`. -/
theorem c2_amended_never_skipped (tz now : String) (st : Store) (fxs : List Fixture)
    (fx : Fixture) (hmem : fx ∈ fxs) (hid : fx.fixtureId = none) :
    (processFixtures noDbErr tz now st fxs).2 = .ok (fxs.map (rowOf tz now)) ∧
    (fxs.map (rowOf tz now)).length = fxs.length ∧
    (rowOf tz now fx).id_api = "null" ∧
    "null" ∈ (upsertJogos noDbErr (processFixtures noDbErr tz now st fxs).1
                (fxs.map (rowOf tz now))).1.jogos ∧
    successBodyKeys = ["ok", "created", "updated", "debug"] ∧
    "skipped" ∉ successBodyKeys := by
  have hrow : (rowOf tz now fx).id_api = "null" := by
    simp [rowOf, buildRow, jsString, hid]
  refine ⟨?_, List.length_map _ _, hrow, ?_, rfl, by decide⟩
  · rw [processFixtures_noErr]
  · rw [processFixtures_noErr, upsertJogos_noErr]
    apply mem_foldUpsert_of_mem_keys
    exact hrow ▸ List.mem_map_of_mem _ (List.mem_map_of_mem _ hmem)

/-- Witness for the amended C2 at the concrete id-less fixture. -/
theorem c2_amended_never_skipped_witness :
    (processFixtures noDbErr "tz" "T1" emptyStore [fxNoId]).2 =
      .ok ([fxNoId].map (rowOf "tz" "T1")) ∧
    ([fxNoId].map (rowOf "tz" "T1")).length = [fxNoId].length ∧
    (rowOf "tz" "T1" fxNoId).id_api = "null" ∧
    "null" ∈ (upsertJogos noDbErr (processFixtures noDbErr "tz" "T1" emptyStore [fxNoId]).1
                ([fxNoId].map (rowOf "tz" "T1"))).1.jogos ∧
    successBodyKeys = ["ok", "created", "updated", "debug"] ∧
    "skipped" ∉ successBodyKeys :=
  c2_amended_never_skipped "tz" "T1" emptyStore [fxNoId] fxNoId
    (List.mem_singleton.mpr rfl) rfl

/-- C7 counterexample: a fixture whose home and away team ids are null is
not special-cased — team resolution still runs (upserting a `times` row
keyed `"null"`) and the built row's team internal-id fields are populated,
not null. -/
theorem c7_counterexample_team_fields :
    fxNoTeams.homeId = none ∧ fxNoTeams.awayId = none ∧
    processFixtures noDbErr "tz" "T1" emptyStore [fxNoTeams] =
      (⟨["71"], ["null"], []⟩, .ok [rowOf "tz" "T1" fxNoTeams]) ∧
    (rowOf "tz" "T1" fxNoTeams).time_casa_id = some "time:null" ∧
    ¬ (rowOf "tz" "T1" fxNoTeams).time_casa_id = none ∧
    ¬ (rowOf "tz" "T1" fxNoTeams).time_fora_id = none := by
  refine ⟨rfl, rfl, rfl, by decide, by decide, by decide⟩

/-- C7 amended: for a fixture whose embedded home (or away) team object
has a null external id — on that side alone or on both — the engine does
not skip resolution: `ensureTeamId` is still called with
`String(t.id) = "null"`, a team row is upserted under that key, and the
candidate match row's internal-id field for that side carries the row's
internal id rather than null. -/
theorem c7_amended_null_team_resolved (tz now : String) (st : Store) (fx : Fixture) :
    (fx.homeId = none →
      (rowOf tz now fx).time_casa_id = some (timeUuid "null") ∧
      "null" ∈ (processFixtures noDbErr tz now st [fx]).1.times) ∧
    (fx.awayId = none →
      (rowOf tz now fx).time_fora_id = some (timeUuid "null") ∧
      "null" ∈ (processFixtures noDbErr tz now st [fx]).1.times) ∧
    (processFixtures noDbErr tz now st [fx]).2 = .ok [rowOf tz now fx] := by
  refine ⟨fun hh => ⟨by simp [rowOf, buildRow, jsString, hh], ?_⟩,
    fun ha => ⟨by simp [rowOf, buildRow, jsString, ha], ?_⟩, ?_⟩
  · rw [processFixtures_noErr]
    show "null" ∈ (storeAfterResolve _ [fx]).times
    simp only [storeAfterResolve, hh, jsString]
    exact mem_upsertKey_of_mem _ (mem_upsertKey_self _ _)
  · rw [processFixtures_noErr]
    show "null" ∈ (storeAfterResolve _ [fx]).times
    simp only [storeAfterResolve, ha, jsString]
    exact mem_upsertKey_self _ _
  · simp [processFixtures_noErr]

/-- Witness for the amended C7: one fixture with only the home id null,
one with only the away id null. -/
theorem c7_amended_null_team_resolved_witness :
    ((rowOf "tz" "T1" fxHomeNull).time_casa_id = some (timeUuid "null") ∧
     "null" ∈ (processFixtures noDbErr "tz" "T1" emptyStore [fxHomeNull]).1.times) ∧
    ((rowOf "tz" "T1" fxAwayNull).time_fora_id = some (timeUuid "null") ∧
     "null" ∈ (processFixtures noDbErr "tz" "T1" emptyStore [fxAwayNull]).1.times) :=
  ⟨(c7_amended_null_team_resolved "tz" "T1" emptyStore fxHomeNull).1 rfl,
   (c7_amended_null_team_resolved "tz" "T1" emptyStore fxAwayNull).2.1 rfl⟩

/-- C6 counterexample: with the bulk upsert failing and row `"a"`'s
fallback update failing, `upsertJogos` throws row `"a"`'s error and never
attempts row `"b"`'s update — the failure does block the remaining rows
of the fallback path. -/
theorem c6_counterexample_fallback_blocks :
    upsertJogos dbBulkRowA stAB [rowA, rowB] =
      (stAB, [.select, .bulk, .updateRow "a"], .error (.db "update a failed")) ∧
    DbOp.updateRow "b" ∉ [DbOp.select, DbOp.bulk, DbOp.updateRow "a"] ∧
    rowB ∈ [rowA, rowB] := by
  refine ⟨?_, by decide, by decide⟩
  have h1 : (upsertJogos dbBulkRowA stAB [rowA, rowB]).1 = stAB := by decide
  have h2 : (upsertJogos dbBulkRowA stAB [rowA, rowB]).2.1 =
      [.select, .bulk, .updateRow "a"] := by decide
  have h3 : (upsertJogos dbBulkRowA stAB [rowA, rowB]).2.2 =
      .error (.db "update a failed") := rfl
  exact Prod.ext h1 (Prod.ext h2 h3)

/-- C6 amended: when the bulk upsert fails, `upsertJogos` falls back to
one batch insert of the rows whose external ids did not previously exist
followed by individual updates of the others, in order; the first
individual update that fails throws its error immediately, so the
remaining rows of the fallback path are not attempted. -/
theorem c6_amended_fallback_aborts (db : DbOracle) (st : Store)
    (rows pre post : List JogosInsert) (r : JogosInsert) (m e : String)
    (hrows : rows.isEmpty = false) (hsel : db.selectErr = none)
    (hbulk : db.bulkErr = some e) (hins : db.insertErr = none)
    (hsplit : (rows.filter fun x => x.id_api ∈ st.jogos) = pre ++ r :: post)
    (hpre : ∀ p ∈ pre, db.updateErr p.id_api = none)
    (hr : db.updateErr r.id_api = some m) :
    (upsertJogos db st rows).2.2 = .error (.db m) ∧
    (upsertJogos db st rows).2.1 =
      [.select, .bulk] ++
        (if (rows.filter fun x => x.id_api ∉ st.jogos).isEmpty then [] else [.insertBatch]) ++
        pre.map (fun p => .updateRow p.id_api) ++ [.updateRow r.id_api] ∧
    (∀ q ∈ post, q.id_api ∉ pre.map (·.id_api) → ¬ q.id_api = r.id_api →
      DbOp.updateRow q.id_api ∉ (upsertJogos db st rows).2.1) := by
  have hupd := runUpdates_first_fail db pre r post m hpre hr
  have hmain : (upsertJogos db st rows).2.2 = .error (.db m) ∧
      (upsertJogos db st rows).2.1 =
        [.select, .bulk] ++
          (if (rows.filter fun x => x.id_api ∉ st.jogos).isEmpty then []
           else [.insertBatch]) ++
          pre.map (fun p => .updateRow p.id_api) ++ [.updateRow r.id_api] := by
    cases hti : (rows.filter fun x => x.id_api ∉ st.jogos).isEmpty with
    | true =>
      simp only [upsertJogos, hrows, Bool.false_eq_true, if_false, hsel, hbulk, hti, if_true,
        hsplit, hupd, Except.map, List.append_nil, List.append_assoc]
      exact ⟨trivial, trivial⟩
    | false =>
      simp only [upsertJogos, hrows, Bool.false_eq_true, if_false, hsel, hbulk, hti, hins,
        hsplit, hupd, Except.map, List.append_assoc]
      exact ⟨trivial, rfl⟩
  refine ⟨hmain.1, hmain.2, ?_⟩
  intro q hq hqpre hqr
  rw [hmain.2]
  intro hmem
  simp only [List.mem_append, List.mem_cons, List.not_mem_nil, or_false] at hmem
  rcases hmem with ((h1 | h2) | h3) | h4
  · rcases h1 with h1 | h1 <;> cases h1
  · split at h2
    · cases h2
    · rcases List.mem_cons.mp h2 with h2 | h2
      · cases h2
      · cases h2
  · rcases List.mem_map.mp h3 with ⟨p, hp, hpq⟩
    exact hqpre ((DbOp.updateRow.inj hpq) ▸ List.mem_map_of_mem _ hp)
  · exact hqr (DbOp.updateRow.inj h4)

/-- Witness for the amended C6 at the concrete two-row batch. -/
theorem c6_amended_fallback_aborts_witness :
    (upsertJogos dbBulkRowA stAB [rowA, rowB]).2.2 = .error (.db "update a failed") ∧
    (upsertJogos dbBulkRowA stAB [rowA, rowB]).2.1 =
      [.select, .bulk] ++
        (if ([rowA, rowB].filter fun x => x.id_api ∉ stAB.jogos).isEmpty then []
         else [.insertBatch]) ++
        List.map (fun p => DbOp.updateRow p.id_api) ([] : List JogosInsert) ++
        [.updateRow rowA.id_api] ∧
    (∀ q ∈ [rowB], q.id_api ∉ List.map (·.id_api) ([] : List JogosInsert) →
      ¬ q.id_api = rowA.id_api →
      DbOp.updateRow q.id_api ∉ (upsertJogos dbBulkRowA stAB [rowA, rowB]).2.1) :=
  c6_amended_fallback_aborts dbBulkRowA stAB [rowA, rowB] [] [rowB] rowA
    "update a failed" "bulk upsert failed" rfl rfl rfl rfl (by decide)
    (by simp) rfl

/-- C3 counterexample: a zero-result first page does not yield an empty
fixture sequence — when its paging metadata still reports `total = 2`,
the fetcher goes on to page 2 and returns that page's records. -/
theorem c3_counterexample_zero_first_page :
    httpLatePage (baseParams inputA) = .ok ⟨[], 0, 1, 2, []⟩ ∧
    (fetchFixturesSmart httpLatePage (baseParams inputA)).2 =
      .ok ⟨[fxA], ⟨[], 0, 1, 2, []⟩, false⟩ ∧
    ¬ ([fxA] : List Fixture) = [] := by
  refine ⟨rfl, rfl, by decide⟩

/-- C3 amended: for a first-page envelope reporting `paging.total = T > 1`
(first request issued without a `page` parameter, i.e. page 1 implicit),
the fetcher issues exactly `T` requests agreeing on league, season, date
and timezone and differing only in the page parameter (`none`, then
`2..T`), and returns the concatenation of all pages' records in page
order. A zero-result first page is never a transport error, and yields an
empty fixture sequence when paging reports a single page — the fetcher
does not stop early on zero results when `total > 1`. -/
theorem c3_amended_pagination :
    (∀ (oracle : ApiParams → HttpResult) (base : ApiParams) (env0 : Envelope) (T : Nat),
      base.page = none → oracle base = .ok env0 → env0.pagingTotal = T → 1 < T →
      (∀ p, 2 ≤ p → p ≤ T → (oracle (setPage base p)).isOk = true) →
      (fetchFixturesSmart oracle base).1.length = T ∧
      (∀ r ∈ (fetchFixturesSmart oracle base).1,
        r.league = base.league ∧ r.season = base.season ∧ r.date = base.date ∧
        r.timezone = base.timezone) ∧
      (fetchFixturesSmart oracle base).1.map (·.page) =
        none :: (List.range' 2 (T - 1)).map some ∧
      (fetchFixturesSmart oracle base).2 =
        .ok ⟨env0.response ++
               (List.range' 2 (T - 1)).flatMap
                 (fun p => ((oracle (setPage base p)).env).response),
             env0, !env0.errorKeys.isEmpty⟩) ∧
    (∀ (oracle : ApiParams → HttpResult) (base : ApiParams) (env0 : Envelope),
      oracle base = .ok env0 → env0.response = [] → env0.pagingTotal ≤ 1 →
      fetchFixturesSmart oracle base = ([base], .ok ⟨[], env0, !env0.errorKeys.isEmpty⟩)) := by
  constructor
  · intro oracle base env0 T hbase h0 hT hT1 hp
    subst hT
    have hf := fetch_all_ok oracle base h0 hp
    rw [hf]
    refine ⟨?_, ?_, ?_, rfl⟩
    · simp only [List.length_cons, List.length_map, List.length_range']
      omega
    · intro r hr
      rcases List.mem_cons.mp hr with h' | h'
      · subst h'
        exact ⟨rfl, rfl, rfl, rfl⟩
      · rcases List.mem_map.mp h' with ⟨p, _, rfl⟩
        exact ⟨rfl, rfl, rfl, rfl⟩
    · simp only [List.map_cons, List.map_map, hbase]
      rfl
  · intro oracle base env0 h0 hresp htot
    have hp : ∀ p, 2 ≤ p → p ≤ env0.pagingTotal → (oracle (setPage base p)).isOk = true := by
      intro p h2 h1
      omega
    have hf := fetch_all_ok oracle base h0 hp
    rw [hf]
    have h1 : env0.pagingTotal - 1 = 0 := by omega
    simp [h1, hresp]

/-- Witness for the amended C3: the first conjunct at a three-page
upstream, the second at a single zero-result page. -/
theorem c3_amended_pagination_witness :
    ((fetchFixturesSmart httpThreePages (baseParams inputA)).1.length = 3 ∧
     (∀ r ∈ (fetchFixturesSmart httpThreePages (baseParams inputA)).1,
       r.league = (baseParams inputA).league ∧ r.season = (baseParams inputA).season ∧
       r.date = (baseParams inputA).date ∧ r.timezone = (baseParams inputA).timezone) ∧
     (fetchFixturesSmart httpThreePages (baseParams inputA)).1.map (·.page) =
       none :: (List.range' 2 (3 - 1)).map some ∧
     (fetchFixturesSmart httpThreePages (baseParams inputA)).2 =
       .ok ⟨(⟨[], 1, 1, 3, [fxA]⟩ : Envelope).response ++
              (List.range' 2 (3 - 1)).flatMap
                (fun p => ((httpThreePages (setPage (baseParams inputA) p)).env).response),
            ⟨[], 1, 1, 3, [fxA]⟩, !(⟨[], 1, 1, 3, [fxA]⟩ : Envelope).errorKeys.isEmpty⟩) ∧
    fetchFixturesSmart httpEmptyOne (baseParams inputA) =
      ([baseParams inputA],
       .ok ⟨[], ⟨[], 0, 1, 1, []⟩, !(⟨[], 0, 1, 1, []⟩ : Envelope).errorKeys.isEmpty⟩) :=
  ⟨c3_amended_pagination.1 httpThreePages (baseParams inputA) ⟨[], 1, 1, 3, [fxA]⟩ 3
      rfl rfl rfl (by decide) (by decide),
   c3_amended_pagination.2 httpEmptyOne (baseParams inputA) ⟨[], 0, 1, 1, []⟩
      rfl rfl (by decide)⟩

/-- C4: an envelope that decodes with a non-empty error map is returned
by the fetcher as an upstream logical error without raising, and the
invocation answers 502 with `ok: false`; a transport failure instead
raises immediately with the response status and body, and — like an
internal persistence error — is caught and answered as 500 with
`ok: false`. -/
theorem c4_upstream_vs_transport_errors :
    (∀ (http : ApiParams → HttpResult) (db : DbOracle) (i : HandlerInput) (st : Store)
       (env0 : Envelope),
      ¬ i.apiKey = "" → http (baseParams i) = .ok env0 → ¬ env0.errorKeys = [] →
      (∀ p, 2 ≤ p → p ≤ env0.pagingTotal → (http (setPage (baseParams i) p)).isOk = true) →
      (∃ fr : FetchOk, (fetchFixturesSmart http (baseParams i)).2 = .ok fr ∧
         fr.hasErrors = true) ∧
      handler http db i st = (st, 502, .upstreamError env0.errorKeys (baseParams i)) ∧
      (RespBody.upstreamError env0.errorKeys (baseParams i)).okField = false) ∧
    (∀ (http : ApiParams → HttpResult) (db : DbOracle) (i : HandlerInput) (st : Store)
       (s : Nat) (b : String),
      ¬ i.apiKey = "" → http (baseParams i) = .fail s b →
      (fetchFixturesSmart http (baseParams i)).2 = .error (.transport s b) ∧
      handler http db i st =
        (st, 500, .caught ("API-Football error " ++ toString s ++ ": " ++ b)) ∧
      (RespBody.caught ("API-Football error " ++ toString s ++ ": " ++ b)).okField = false) ∧
    (∀ (http : ApiParams → HttpResult) (db : DbOracle) (i : HandlerInput) (st : Store)
       (env0 : Envelope) (fx : Fixture) (rest : List Fixture) (m : String),
      ¬ i.apiKey = "" → http (baseParams i) = .ok env0 → env0.errorKeys = [] →
      env0.pagingTotal ≤ 1 → env0.response = fx :: rest →
      db.ligaErr (toString fx.leagueIdApi) = some m →
      handler http db i st = (st, 500, .caught m)) := by
  refine ⟨?_, ?_, ?_⟩
  · intro http db i st env0 hkey h0 herr hp
    have hf := fetch_all_ok http (baseParams i) h0 hp
    have he : (!env0.errorKeys.isEmpty) = true := by
      simp [List.isEmpty_iff, herr]
    exact ⟨⟨_, by rw [hf], he⟩, handler_upstream_error http db i st hkey h0 herr hp, rfl⟩
  · intro http db i st s b hkey h0
    exact ⟨by rw [fetch_first_fail http (baseParams i) h0],
      handler_transport_error http db i st hkey h0, rfl⟩
  · intro http db i st env0 fx rest m hkey h0 herr htot hresp hdb
    have hp : ∀ p, 2 ≤ p → p ≤ env0.pagingTotal → (http (setPage (baseParams i) p)).isOk = true := by
      intro p h2 h1
      omega
    have hf := fetch_all_ok http (baseParams i) h0 hp
    have h1 : env0.pagingTotal - 1 = 0 := by omega
    rw [h1, List.range'_zero, List.map_nil, List.flatMap_nil, List.append_nil] at hf
    have hproc : processFixtures db i.tz i.now st (fx :: rest) = (st, .error (.db m)) := by
      simp [processFixtures, ensureLeagueId, hdb]
    simp only [handler, if_neg hkey, hf, herr, List.isEmpty_nil, Bool.not_true,
      Bool.false_eq_true, if_false, hresp, hproc, PipeError.message]

/-- Witness for C4: the three scenarios at concrete upstreams. -/
theorem c4_upstream_vs_transport_errors_witness :
    ((∃ fr : FetchOk, (fetchFixturesSmart httpUpstreamErr (baseParams inputA)).2 = .ok fr ∧
        fr.hasErrors = true) ∧
     handler httpUpstreamErr noDbErr inputA emptyStore =
       (emptyStore, 502, .upstreamError ["token"] (baseParams inputA)) ∧
     (RespBody.upstreamError ["token"] (baseParams inputA)).okField = false) ∧
    ((fetchFixturesSmart httpTransportFail (baseParams inputA)).2 =
       .error (.transport 499 "bad key") ∧
     handler httpTransportFail noDbErr inputA emptyStore =
       (emptyStore, 500, .caught ("API-Football error " ++ toString 499 ++ ": " ++ "bad key")) ∧
     (RespBody.caught ("API-Football error " ++ toString 499 ++ ": " ++ "bad key")).okField
       = false) ∧
    handler httpOnePage dbLigaFail inputA emptyStore =
      (emptyStore, 500, .caught "liga upsert failed") :=
  ⟨c4_upstream_vs_transport_errors.1 httpUpstreamErr noDbErr inputA emptyStore
      ⟨["token"], 0, 1, 1, []⟩ (by decide) rfl (by decide) (by decide),
   c4_upstream_vs_transport_errors.2.1 httpTransportFail noDbErr inputA emptyStore
      499 "bad key" (by decide) rfl,
   c4_upstream_vs_transport_errors.2.2 httpOnePage dbLigaFail inputA emptyStore
      ⟨[], 1, 1, 1, [fxA]⟩ fxA [] "liga upsert failed" (by decide) rfl rfl
      (by decide) rfl rfl⟩

/-- C10: on an upstream logical error (non-empty first-page error map)
the invocation performs no database writes at all — for every
persistence layer the store is returned unchanged and the response is
the 502 upstream-error body, produced before any league, team or match
upsert is issued. -/
theorem c10_upstream_error_no_writes (http : ApiParams → HttpResult) (db : DbOracle)
    (i : HandlerInput) (st : Store) (env0 : Envelope)
    (hkey : ¬ i.apiKey = "") (h0 : http (baseParams i) = .ok env0)
    (herr : ¬ env0.errorKeys = [])
    (hp : ∀ p, 2 ≤ p → p ≤ env0.pagingTotal → (http (setPage (baseParams i) p)).isOk = true) :
    (handler http db i st).1 = st ∧
    (handler http db i st).2.1 = 502 ∧
    (handler http db i st).2.2 = .upstreamError env0.errorKeys (baseParams i) := by
  rw [handler_upstream_error http db i st hkey h0 herr hp]
  exact ⟨rfl, rfl, rfl⟩

/-- Witness for C10: with a persistence layer that would reject every
league write, the store still comes back untouched under a 502. -/
theorem c10_upstream_error_no_writes_witness :
    (handler httpUpstreamErr dbLigaFail inputA stOne).1 = stOne ∧
    (handler httpUpstreamErr dbLigaFail inputA stOne).2.1 = 502 ∧
    (handler httpUpstreamErr dbLigaFail inputA stOne).2.2 =
      .upstreamError ["token"] (baseParams inputA) :=
  c10_upstream_error_no_writes httpUpstreamErr dbLigaFail inputA stOne
    ⟨["token"], 0, 1, 1, []⟩ (by decide) rfl (by decide) (by decide)

/-- C1: the pipeline is idempotent. If a run over `st0` succeeds with
counts `(c, u)` and final store `st1`, then a second run over `st1` with
the same inputs reports `created = 0` and `updated = N` for the whole
batch of `N` rows and leaves every table's key set (indeed the whole
store) unchanged; moreover the first run classified a row as created
exactly when no `jogos` row with its external id existed before the
batch upsert, and as updated otherwise. -/
theorem c1_pipeline_idempotent (http : ApiParams → HttpResult) (i : HandlerInput)
    (st0 st1 : Store) (c u : Nat)
    (h1 : handler http noDbErr i st0 = (st1, 200, .success c u)) :
    handler http noDbErr i st1 = (st1, 200, .success 0 (builtRows http i).length) ∧
    c = ((builtRows http i).filter fun r => r.id_api ∉ st0.jogos).length ∧
    u = ((builtRows http i).filter fun r => r.id_api ∈ st0.jogos).length := by
  by_cases hk : i.apiKey = ""
  · simp [handler, hk] at h1
  · rcases hf : (fetchFixturesSmart http (baseParams i)).2 with e | fr
    · simp only [handler, if_neg hk, hf] at h1
      simp at h1
    · cases he : fr.hasErrors with
      | true =>
        simp only [handler, if_neg hk, hf, he, if_true] at h1
        simp at h1
      | false =>
        have hbuilt : builtRows http i = fr.fixtures.map (rowOf i.tz i.now) := by
          simp [builtRows, fetchedFixtures, hf]
        simp only [handler, if_neg hk, hf, he, Bool.false_eq_true, if_false,
          processFixtures_noErr, upsertJogos_noErr, storeAfterResolve_jogos] at h1
        injection h1 with hst h2
        injection h2 with _ hcu
        injection hcu with hc hu
        have hres : storeAfterResolve
            { storeAfterResolve st0 fr.fixtures with
                jogos := foldUpsert
                  ((fr.fixtures.map (rowOf i.tz i.now)).map (·.id_api)) st0.jogos }
            fr.fixtures =
            { storeAfterResolve st0 fr.fixtures with
                jogos := foldUpsert
                  ((fr.fixtures.map (rowOf i.tz i.now)).map (·.id_api)) st0.jogos } :=
          storeAfterResolve_id
            (fun fx hfx => ligaKey_mem_storeAfterResolve st0 hfx)
            (fun fx hfx => homeKey_mem_storeAfterResolve st0 hfx)
            (fun fx hfx => awayKey_mem_storeAfterResolve st0 hfx)
        have hex : ∀ r ∈ fr.fixtures.map (rowOf i.tz i.now),
            r.id_api ∈ ({ storeAfterResolve st0 fr.fixtures with
                jogos := foldUpsert
                  ((fr.fixtures.map (rowOf i.tz i.now)).map (·.id_api)) st0.jogos } :
              Store).jogos := by
          intro r hr
          exact mem_foldUpsert_of_mem_keys (List.mem_map_of_mem _ hr) _
        have hupd := upsertJogos_all_existing _ _ hex
        refine ⟨?_, by rw [hbuilt]; exact hc.symm, by rw [hbuilt]; exact hu.symm⟩
        rw [← hst]
        simp only [handler, if_neg hk, hf, he, Bool.false_eq_true, if_false,
          processFixtures_noErr, hres, hupd, hbuilt, List.length_map]

/-- Witness for C1: a second run over the store produced by a first run
from the empty store reports `created = 0`, `updated = 1` and leaves the
store unchanged. -/
theorem c1_pipeline_idempotent_witness :
    handler httpOnePage noDbErr inputA stOne =
      (stOne, 200, .success 0 (builtRows httpOnePage inputA).length) ∧
    1 = ((builtRows httpOnePage inputA).filter fun r => r.id_api ∉ emptyStore.jogos).length ∧
    0 = ((builtRows httpOnePage inputA).filter fun r => r.id_api ∈ emptyStore.jogos).length :=
  c1_pipeline_idempotent httpOnePage inputA emptyStore stOne 1 0 (by decide)

end Ingest
